import Mathlib

/-!
Shallow embedding of the weather widget in `src/components/WeatherDisplay.tsx`
and verification of its specification.

The component fetches a JSON payload from a remote endpoint, resolves display
fields through fallback chains, and renders one of several visual states.
JavaScript optional fields are embedded as `Option`; JavaScript truthiness on
strings ("" is falsy) is made explicit.  Page markup is abstracted to the
discriminating content of each render branch.
-/

/-- Modelled from the spec: the configuration type imported from `../types`
(the file is not under `src/`); the spec gives it as `{ enabled: boolean }`
and states no other field is read. -/
structure WeatherConfig where
  enabled : Bool
  deriving DecidableEq

/-- Fields of the optional `weatherData` object inside the payload
(interface `JinriShiciData`, lines 9-16).  `temperature` and `humidity` are
JSON numbers, the rest strings; every field is optional. -/
structure WeatherFields where
  temperature : Option Int
  humidity : Option Int
  weather : Option String
  wind : Option String
  airQuality : Option String
  region : Option String
  deriving DecidableEq

/-- The `data` member of the payload (lines 8-26). -/
structure PayloadData where
  weatherData : Option WeatherFields
  tags : Option (List String)
  poetryTokens : Option (List String)
  inspirationTokens : Option (List String)
  region : Option String
  location : Option String
  city : Option String
  province : Option String
  deriving DecidableEq

/-- The JSON payload returned by the endpoint (interface `JinriShiciData`,
lines 5-27).  The TypeScript interface declares `data` as present, but the
component guards against its absence at runtime (`!weatherData.data`),
so it is embedded as an `Option`. -/
structure JinriShiciData where
  status : String
  message : String
  data : Option PayloadData
  deriving DecidableEq

/-- JavaScript truthiness of an optional string: `undefined` / `null` and the
empty string are falsy, every other string is truthy. -/
def strTruthy : Option String → Bool
  | some s => s != ""
  | none => false

/-- Embedding of `locationInfo.replace(/[|｜]/g, '·')` (line 170): every
ASCII vertical bar and fullwidth vertical bar is replaced by the middle-dot
character. -/
def normalizeSeparators (s : String) : String :=
  String.mk (s.toList.map fun c => if c = '|' || c = '｜' then '·' else c)

/-- Embedding of the `locationInfo` computation inside `getCityInfo`
(lines 149-166): the fallback chain tests JavaScript truthiness at each step;
step 4 composes `[data.province, data.city].filter(Boolean).join('·')` under
the guard `data.city || data.province`. -/
def locationCandidate (data : PayloadData) : Option String :=
  if strTruthy (data.weatherData.bind WeatherFields.region) then
    data.weatherData.bind WeatherFields.region
  else if strTruthy data.region then
    data.region
  else if strTruthy data.location then
    data.location
  else if strTruthy data.city || strTruthy data.province then
    some (String.intercalate "·"
      (([data.province, data.city].filterMap id).filter fun s => s != ""))
  else
    none

/-- Embedding of `getCityInfo` (lines 141-175), a function of the component's
`weatherData` state: when the candidate chain yields a truthy string it is
returned with separators normalized (lines 168-172), otherwise the
unknown-location placeholder (line 174); an absent snapshot or absent `data`
short-circuits to the unknown-city placeholder (lines 142-144). -/
def getCityInfo (weatherData : Option JinriShiciData) : String :=
  match weatherData with
  | none => "未知城市"
  | some w =>
    match w.data with
    | none => "未知城市"
    | some data =>
      if strTruthy (locationCandidate data) then
        normalizeSeparators ((locationCandidate data).getD "")
      else
        "未知位置"

/-- First candidate of an ordered fallback list that resolves, where a
candidate resolves when it is present and nonempty. -/
def firstResolved : List (Option String) → Option String
  | [] => none
  | none :: rest => firstResolved rest
  | some s :: rest => if s != "" then some s else firstResolved rest

/-- The composition of `data.province` and `data.city` joined by a middle dot
with empty parts skipped, as the spec words it; absent when no part remains. -/
def composedProvinceCity (d : PayloadData) : Option String :=
  let parts := ([d.province, d.city].filterMap id).filter fun s => s != ""
  if parts.isEmpty then none else some (String.intercalate "·" parts)

/-- Location resolution as the spec states it: the ordered fallback chain
`weatherData.region`, `region`, `location`, composed province·city — first
match wins; if none resolve the placeholder is returned; vertical-bar
separators in the resolved string are normalized to the middle dot. -/
def resolveLocationSpec (d : PayloadData) : String :=
  match firstResolved
      [d.weatherData.bind WeatherFields.region, d.region, d.location,
        composedProvinceCity d] with
  | some s => normalizeSeparators s
  | none => "未知位置"

theorem firstResolved_cons (o : Option String) (rest : List (Option String)) :
    firstResolved (o :: rest) = if strTruthy o then o else firstResolved rest := by
  cases o with
  | none => simp [firstResolved, strTruthy]
  | some s => by_cases hs : s = "" <;> simp [firstResolved, strTruthy, hs]

theorem strTruthy_none : strTruthy none = false := rfl

theorem strTruthy_some (s : String) : strTruthy (some s) = (s != "") := rfl

theorem composed_parts_isEmpty (d : PayloadData) :
    (([d.province, d.city].filterMap id).filter fun s => s != "").isEmpty
      = !(strTruthy d.city || strTruthy d.province) := by
  cases hc : d.city with
  | none =>
    cases hp : d.province with
    | none => rfl
    | some p => by_cases hp2 : p = "" <;> simp [strTruthy, hp2]
  | some c =>
    cases hp : d.province with
    | none => by_cases hc2 : c = "" <;> simp [strTruthy, hc2]
    | some p =>
      by_cases hp2 : p = "" <;> by_cases hc2 : c = "" <;>
        simp [strTruthy, hp2, hc2]

theorem firstResolved_eq_locationCandidate (d : PayloadData) :
    firstResolved
        [d.weatherData.bind WeatherFields.region, d.region, d.location,
          composedProvinceCity d] =
      if strTruthy (locationCandidate d) then locationCandidate d else none := by
  simp only [firstResolved_cons, firstResolved, locationCandidate,
    composedProvinceCity, composed_parts_isEmpty]
  by_cases h1 : strTruthy (d.weatherData.bind WeatherFields.region) = true
  · simp [h1]
  · by_cases h2 : strTruthy d.region = true
    · simp [h1, h2]
    · by_cases h3 : strTruthy d.location = true
      · simp [h1, h2, h3]
      · by_cases hg : (strTruthy d.city || strTruthy d.province) = true
        · simp [h1, h2, h3, hg]
        · simp [h1, h2, h3, hg, strTruthy_none]

/-- Bridge between the embedded `getCityInfo` chain and the chain as the spec
words it; shared by several claims below. -/
theorem getCityInfo_spec_bridge (st msg : String) (d : PayloadData) :
    getCityInfo (some ⟨st, msg, some d⟩) = resolveLocationSpec d := by
  show (if strTruthy (locationCandidate d) then
      normalizeSeparators ((locationCandidate d).getD "")
    else "未知位置") = resolveLocationSpec d
  rw [resolveLocationSpec, firstResolved_eq_locationCandidate]
  by_cases h : strTruthy (locationCandidate d)
  · cases hc : locationCandidate d with
    | none => rw [hc] at h; simp [strTruthy] at h
    | some s =>
      rw [hc] at h
      simp [h, hc]
  · simp [h]

/-- C1: for every payload (its `data` member present, as the payload interface
declares), the resolved location string is the ordered fallback chain
`weatherData.region` → `region` → `location` → composed province·city with
empty parts skipped, first match wins; when none resolve it is the
unknown-location placeholder 未知位置; and every vertical-bar separator in the
resolved string is replaced by the middle-dot character — exactly the
spec-side `resolveLocationSpec`. -/
theorem location_resolution_follows_spec_chain (st msg : String) (d : PayloadData) :
    getCityInfo (some ⟨st, msg, some d⟩) = resolveLocationSpec d :=
  getCityInfo_spec_bridge st msg d

/-- JavaScript truthiness collapse: a present-but-empty optional string is
replaced by an absent one. -/
def blankToNone (o : Option String) : Option String :=
  if strTruthy o then o else none

/-- The payload `data` with every location-candidate field that holds the
empty string replaced by an absent field. -/
def eraseBlankLocationFields (d : PayloadData) : PayloadData :=
  { d with
    weatherData := d.weatherData.map fun wd => { wd with region := blankToNone wd.region }
    region := blankToNone d.region
    location := blankToNone d.location
    city := blankToNone d.city
    province := blankToNone d.province }

theorem strTruthy_blankToNone (o : Option String) :
    strTruthy (blankToNone o) = strTruthy o := by
  unfold blankToNone
  by_cases h : strTruthy o = true <;> simp [h, strTruthy_none]

theorem blankToNone_of_truthy (o : Option String) (h : strTruthy o = true) :
    blankToNone o = o := by
  unfold blankToNone
  simp [h]

theorem firstResolved_map_blankToNone (l rest : List (Option String)) :
    firstResolved (l.map blankToNone ++ rest) = firstResolved (l ++ rest) := by
  induction l with
  | nil => rfl
  | cons o t ih =>
    simp only [List.map_cons, List.cons_append, firstResolved_cons, strTruthy_blankToNone]
    by_cases h : strTruthy o = true
    · simp [h, blankToNone_of_truthy o h]
    · simp [h, ih]

theorem composedProvinceCity_eraseBlank (d : PayloadData) :
    composedProvinceCity (eraseBlankLocationFields d) = composedProvinceCity d := by
  unfold composedProvinceCity eraseBlankLocationFields
  cases hc : d.city with
  | none =>
    cases hp : d.province with
    | none => rfl
    | some p =>
      by_cases hp2 : p = "" <;> simp [blankToNone, strTruthy, hp2]
  | some c =>
    cases hp : d.province with
    | none => by_cases hc2 : c = "" <;> simp [blankToNone, strTruthy, hc2]
    | some p =>
      by_cases hp2 : p = "" <;> by_cases hc2 : c = "" <;>
        simp [blankToNone, strTruthy, hp2, hc2]

theorem resolveLocationSpec_eraseBlank (d : PayloadData) :
    resolveLocationSpec (eraseBlankLocationFields d) = resolveLocationSpec d := by
  have e1 : (eraseBlankLocationFields d).weatherData.bind WeatherFields.region
      = blankToNone (d.weatherData.bind WeatherFields.region) := by
    cases hw : d.weatherData with
    | none => simp [eraseBlankLocationFields, hw, blankToNone, strTruthy_none]
    | some wd => simp [eraseBlankLocationFields, hw]
  have e2 : (eraseBlankLocationFields d).region = blankToNone d.region := rfl
  have e3 : (eraseBlankLocationFields d).location = blankToNone d.location := rfl
  have h4 := composedProvinceCity_eraseBlank d
  have hmain : firstResolved
      [blankToNone (d.weatherData.bind WeatherFields.region), blankToNone d.region,
        blankToNone d.location, composedProvinceCity d]
      = firstResolved
      [d.weatherData.bind WeatherFields.region, d.region, d.location,
        composedProvinceCity d] :=
    firstResolved_map_blankToNone
      [d.weatherData.bind WeatherFields.region, d.region, d.location]
      [composedProvinceCity d]
  unfold resolveLocationSpec
  rw [e1, e2, e3, h4, hmain]

/-- C9: in the location fallback chain a field holding the empty string is
treated exactly as an absent field — erasing every present-but-empty
location candidate does not change the resolved location, because each step
tests JavaScript truthiness rather than presence. -/
theorem blank_location_fields_treated_as_absent (st msg : String) (d : PayloadData) :
    getCityInfo (some ⟨st, msg, some (eraseBlankLocationFields d)⟩)
      = getCityInfo (some ⟨st, msg, some d⟩) := by
  rw [getCityInfo_spec_bridge, getCityInfo_spec_bridge, resolveLocationSpec_eraseBlank]

/-- The five icon categories produced by the classifier: the lucide icons
`Sun`, `Cloud`, `CloudRain`, `CloudSnow`, `Wind` (lines 2, 44-54). -/
inductive WeatherIcon where
  | sun
  | cloud
  | rain
  | snow
  | wind
  deriving DecidableEq

/-- Embedding of JavaScript `String.prototype.includes`: substring test. -/
def containsSub (s pat : String) : Bool :=
  decide (pat.toList <:+: s.toList)

/-- Embedding of `getWeatherIcon` (lines 40-56): the description is
lowercased once and tested against keyword pairs in a fixed order; the final
`else` falls back to the sun icon. -/
def getWeatherIcon (weather : String) : WeatherIcon :=
  let weatherLower := weather.toLower
  if containsSub weatherLower "晴" || containsSub weatherLower "sunny" then .sun
  else if containsSub weatherLower "云" || containsSub weatherLower "cloud" then .cloud
  else if containsSub weatherLower "雨" || containsSub weatherLower "rain" then .rain
  else if containsSub weatherLower "雪" || containsSub weatherLower "snow" then .snow
  else if containsSub weatherLower "风" || containsSub weatherLower "wind" then .wind
  else .sun

/-- Keyword set for the clear/sunny category. -/
def sunnyKeywords : List String := ["晴", "sunny"]

/-- Keyword set for the cloudy category. -/
def cloudyKeywords : List String := ["云", "cloud"]

/-- Keyword set for the rain category. -/
def rainKeywords : List String := ["雨", "rain"]

/-- Keyword set for the snow category. -/
def snowKeywords : List String := ["雪", "snow"]

/-- Keyword set for the wind category. -/
def windKeywords : List String := ["风", "wind"]

/-- Case-insensitive substring match of a description against a keyword set
(the keywords are already lowercase). -/
def matchesKeywords (w : String) (kws : List String) : Bool :=
  kws.any fun k => containsSub w.toLower k

/-- Icon classification as the spec words it: case-insensitive substring
match against the keyword sets for clear/sunny, cloudy, rain, snow, wind, in
that fixed priority order, first match wins, and no match falls back to the
clear/sunny category. -/
def classifyIconSpec (w : String) : WeatherIcon :=
  if matchesKeywords w sunnyKeywords then .sun
  else if matchesKeywords w cloudyKeywords then .cloud
  else if matchesKeywords w rainKeywords then .rain
  else if matchesKeywords w snowKeywords then .snow
  else if matchesKeywords w windKeywords then .wind
  else .sun

/-- Bridge between the embedded classifier and the keyword-set description;
shared by several claims below. -/
theorem getWeatherIcon_eq_classifyIconSpec (w : String) :
    getWeatherIcon w = classifyIconSpec w := by
  simp [getWeatherIcon, classifyIconSpec, matchesKeywords, sunnyKeywords,
    cloudyKeywords, rainKeywords, snowKeywords, windKeywords]

/-- C4: the icon classifier maps every free-text description to one of the
five categories by case-insensitive substring match against the keyword sets,
tested in the fixed priority order sunny, cloudy, rain, snow, wind, first
match wins, with the clear/sunny icon as the no-match fallback — exactly the
spec-side `classifyIconSpec`. -/
theorem weather_icon_classification (w : String) :
    getWeatherIcon w = classifyIconSpec w :=
  getWeatherIcon_eq_classifyIconSpec w

/-- The component's fetch-related state hooks (lines 34-36): `weatherData`,
`loading`, `error`.  The hover flag is kept separate since only pointer
events change it. -/
structure UIState where
  weatherData : Option JinriShiciData
  loading : Bool
  error : Option String
  deriving DecidableEq

/-- Outcome of one `fetch` call as observed by `fetchWeather` (lines 68-86):
either the promise chain throws (network failure or a JSON-parse failure),
or a response arrives carrying an HTTP status and a parsed body. -/
inductive FetchOutcome where
  | transportError
  | response (status : Nat) (body : JinriShiciData)
  deriving DecidableEq

/-- Embedding of `Response.ok`: the HTTP status is in the range 200-299. -/
def responseOk (status : Nat) : Bool :=
  200 ≤ status && status ≤ 299

/-- The start of `fetchWeather` (lines 65-66): `setLoading(true)` and
`setError(null)`. -/
def startFetch (s : UIState) : UIState :=
  { s with loading := true, error := none }

/-- The rest of `fetchWeather` (lines 68-89): a thrown transport error or a
non-ok response is caught and mapped to the generic message (lines 72-74,
84-86); an ok response with `status === 'success'` replaces the snapshot
(lines 79-80); any other body sets `data.message || '获取天气数据失败'`
(line 82); the `finally` block clears the loading flag (line 88). -/
def settleFetch (s : UIState) (o : FetchOutcome) : UIState :=
  let s1 :=
    match o with
    | .transportError => { s with error := some "天气数据获取失败" }
    | .response status body =>
      if !responseOk status then
        { s with error := some "天气数据获取失败" }
      else if body.status == "success" then
        { s with weatherData := some body }
      else
        { s with error := some (if body.message != "" then body.message
            else "获取天气数据失败") }
  { s1 with loading := false }

/-- One complete run of `fetchWeather` with a given outcome. -/
def fetchWeather (s : UIState) (o : FetchOutcome) : UIState :=
  settleFetch (startFetch s) o

/-- An outcome that is a failure: transport error, non-ok HTTP status, or a
body whose `status` field is not "success". -/
def isFailureOutcome : FetchOutcome → Bool
  | .transportError => true
  | .response status body => !responseOk status || body.status != "success"

/-- Resolved display fields returned by `getCurrentWeather`; JavaScript
renders them by string interpolation, so each field is embedded as its
rendered string. -/
structure ResolvedWeather where
  temperature : String
  weather : String
  humidity : String
  airQuality : String
  deriving DecidableEq

/-- The empty object `{}` substituted for an absent `weatherData`
(line 129). -/
def emptyWeatherFields : WeatherFields :=
  ⟨none, none, none, none, none, none⟩

/-- Embedding of `getCurrentWeather` (lines 124-136): placeholders are
substituted by nullish coalescing (`??`), so only an absent field becomes
`'--'` or `'未知'`; a present value — even `0` or the empty string — is kept. -/
def getCurrentWeather (weatherData : Option JinriShiciData) : ResolvedWeather :=
  match weatherData with
  | none => ⟨"--", "未知", "--", "--"⟩
  | some w =>
    match w.data with
    | none => ⟨"--", "未知", "--", "--"⟩
    | some d =>
      let weatherInfo := d.weatherData.getD emptyWeatherFields
      { temperature :=
          match weatherInfo.temperature with
          | some t => toString t
          | none => "--"
        weather := weatherInfo.weather.getD "未知"
        humidity :=
          match weatherInfo.humidity with
          | some h => toString h
          | none => "--"
        airQuality := weatherInfo.airQuality.getD "--" }

/-- The discriminating content of each render branch of the component
(lines 100-204): nothing at all, the loading pill, the
weather-unavailable pill, or the success pill with its icon, temperature
text, description text and optional hover tooltip. -/
inductive RenderOutput where
  | empty
  | loadingPill
  | unavailablePill
  | successPill (icon : WeatherIcon) (temperatureText : String)
      (weatherText : String) (tooltip : Option String)
  deriving DecidableEq

/-- Embedding of the component's render logic (lines 100-204): absent or
disabled configuration renders nothing (lines 100-103); then the loading
branch (line 105); then `error || !weatherData` renders the unavailable pill
(line 114); otherwise the success pill is built from `getCurrentWeather`,
`getWeatherIcon`, the `°C` suffix (line 185) and, while hovering, the
`getCityInfo` tooltip (lines 192-202). -/
def render (config : Option WeatherConfig) (s : UIState) (isHovering : Bool) :
    RenderOutput :=
  match config with
  | none => .empty
  | some c =>
    if !c.enabled then .empty
    else if s.loading then .loadingPill
    else if strTruthy s.error || s.weatherData.isNone then .unavailablePill
    else
      let currentWeather := getCurrentWeather s.weatherData
      .successPill (getWeatherIcon currentWeather.weather)
        (currentWeather.temperature ++ "°C")
        currentWeather.weather
        (if isHovering then some (getCityInfo s.weatherData) else none)

/-- C2: every failing fetch — a transport error, a non-ok HTTP status, or a
body whose `status` is not "success" — is converted at the call site into the
error state with a short message (the body's `message` for an
application-level failure with a truthy message, otherwise a generic
default); the loading flag is cleared and the error pill showing 天气不可用
is rendered.  The embedded `fetchWeather` is a total function into `UIState`,
so no failure escapes as an exception. -/
theorem fetch_failure_sets_error_state (s : UIState) (o : FetchOutcome)
    (h : isFailureOutcome o = true) :
    (fetchWeather s o).loading = false ∧
    (fetchWeather s o).error =
      some (match o with
        | .transportError => "天气数据获取失败"
        | .response status body =>
          if !responseOk status then "天气数据获取失败"
          else if body.message != "" then body.message
          else "获取天气数据失败") ∧
    render (some ⟨true⟩) (fetchWeather s o) false = .unavailablePill := by
  cases o with
  | transportError =>
    refine ⟨rfl, rfl, ?_⟩
    simp [fetchWeather, startFetch, settleFetch, render, strTruthy]
  | response status body =>
    by_cases hok : responseOk status = true
    · have hns : (body.status == "success") = false := by
        simp [isFailureOutcome, hok] at h
        simpa using h
      by_cases hm : (body.message != "") = true
      · refine ⟨rfl, ?_, ?_⟩ <;>
          simp [fetchWeather, startFetch, settleFetch, render, strTruthy,
            hok, hns, hm]
      · refine ⟨rfl, ?_, ?_⟩ <;>
          simp [fetchWeather, startFetch, settleFetch, render, strTruthy,
            hok, hns, hm]
    · refine ⟨rfl, ?_, ?_⟩ <;>
        simp [fetchWeather, startFetch, settleFetch, render, strTruthy, hok]

/-- C2 witness: a 500 response is a failure and yields the cleared loading
flag, the generic message and the unavailable pill. -/
theorem fetch_failure_sets_error_state_at_500 :
    isFailureOutcome (.response 500 ⟨"success", "", none⟩) = true ∧
    ((fetchWeather ⟨none, false, none⟩ (.response 500 ⟨"success", "", none⟩)).loading
        = false ∧
      (fetchWeather ⟨none, false, none⟩
          (.response 500 ⟨"success", "", none⟩)).error = some "天气数据获取失败" ∧
      render (some ⟨true⟩)
        (fetchWeather ⟨none, false, none⟩ (.response 500 ⟨"success", "", none⟩))
        false = .unavailablePill) := by
  refine ⟨by decide, ?_⟩
  have h := fetch_failure_sets_error_state ⟨none, false, none⟩
    (.response 500 ⟨"success", "", none⟩) (by decide)
  exact ⟨h.1, h.2.1, h.2.2⟩

/-- C7: a fetch whose body has `status = "success"` (on an ok response) fully
replaces the stored snapshot with the incoming body, independently of the
previous snapshot; every failing fetch leaves the stored snapshot untouched. -/
theorem snapshot_replaced_on_success_only (s : UIState) (o : FetchOutcome) :
    (fetchWeather s o).weatherData =
      match o with
      | .transportError => s.weatherData
      | .response status body =>
        if responseOk status && body.status == "success" then some body
        else s.weatherData := by
  cases o with
  | transportError => rfl
  | response status body =>
    by_cases hok : responseOk status = true
    · by_cases hs : (body.status == "success") = true <;>
        simp [fetchWeather, startFetch, settleFetch, hok, hs]
    · simp [fetchWeather, startFetch, settleFetch, hok]

/-- States reachable by the component's fetch lifecycle: the initial hook
values (lines 34-36), the synchronous start of a fetch, and the settling of
a fetch with some outcome.  Hover events touch no field of `UIState`. -/
inductive Reachable : UIState → Prop
  | init : Reachable ⟨none, false, none⟩
  | start (s : UIState) (h : Reachable s) : Reachable (startFetch s)
  | settle (s : UIState) (o : FetchOutcome) (h : Reachable s) :
      Reachable (settleFetch s o)

/-- In every reachable state the error field is either absent or a truthy
(nonempty) message, so the render guard `error || !weatherData` coincides
with `error ≠ null ∨ weatherData = null`. -/
theorem reachable_error_truthy (s : UIState) (h : Reachable s) :
    strTruthy s.error = s.error.isSome := by
  induction h with
  | init => rfl
  | start s h ih => rfl
  | settle s o h ih =>
    cases o with
    | transportError => simp [settleFetch, strTruthy]
    | response status body =>
      by_cases hok : responseOk status = true
      · by_cases hs : (body.status == "success") = true
        · simpa [settleFetch, hok, hs] using ih
        · by_cases hm : (body.message != "") = true <;>
            simp [settleFetch, hok, hs, hm, strTruthy]
      · simp [settleFetch, hok, strTruthy]

/-- C3: for every reachable state of an enabled widget exactly one of the
three visual states is rendered, selected by the precedence order
loading over error-or-missing-data over success: the output is never empty,
`loading = true` forces the loading pill, otherwise a present error or a
missing snapshot forces the unavailable pill, and otherwise the success pill
is rendered. -/
theorem render_state_precedence (c : WeatherConfig) (s : UIState) (hov : Bool)
    (hen : c.enabled = true) (hr : Reachable s) :
    render (some c) s hov ≠ .empty ∧
    (s.loading = true → render (some c) s hov = .loadingPill) ∧
    (s.loading = false → (s.error ≠ none ∨ s.weatherData = none) →
      render (some c) s hov = .unavailablePill) ∧
    (s.loading = false → s.error = none → s.weatherData ≠ none →
      ∃ i t w tip, render (some c) s hov = .successPill i t w tip) := by
  have herr := reachable_error_truthy s hr
  refine ⟨?_, ?_, ?_, ?_⟩
  · cases hl : s.loading with
    | true => simp [render, hen, hl]
    | false =>
      by_cases hguard : (strTruthy s.error || s.weatherData.isNone) = true <;>
        simp [render, hen, hl, hguard]
  · intro hl
    simp [render, hen, hl]
  · intro hl hor
    have hguard : (strTruthy s.error || s.weatherData.isNone) = true := by
      rcases hor with he | hw
      · rw [herr]
        simp [Option.isSome_iff_exists]
        exact Or.inl (Option.ne_none_iff_exists'.mp he)
      · simp [hw]
    simp [render, hen, hl, hguard]
  · intro hl he hw
    obtain ⟨x, hx⟩ := Option.ne_none_iff_exists'.mp hw
    refine ⟨getWeatherIcon (getCurrentWeather s.weatherData).weather,
      (getCurrentWeather s.weatherData).temperature ++ "°C",
      (getCurrentWeather s.weatherData).weather,
      if hov then some (getCityInfo s.weatherData) else none, ?_⟩
    simp [render, hen, hl, he, hx, strTruthy]

/-- C3 witness: the initial state of an enabled widget renders the
unavailable pill (no error yet, but also no snapshot). -/
theorem render_state_precedence_at_init :
    render (some ⟨true⟩) ⟨none, false, none⟩ false = .unavailablePill := by
  have h := render_state_precedence ⟨true⟩ ⟨none, false, none⟩ false rfl Reachable.init
  exact h.2.2.1 rfl (Or.inr rfl)

/-- C5: for a successful payload carrying a full `weatherData` object, the
rendered temperature is the payload's temperature followed by `°C` and the
rendered icon is the keyword-priority classification of the payload's
weather description; for a successful payload missing `weatherData`
entirely, the temperature resolves to the `--` placeholder and the weather
description to 未知. -/
theorem success_payload_rendering (p : JinriShiciData) (d : PayloadData)
    (hd : p.data = some d) :
    (∀ t hu w wi aq rg,
      d.weatherData = some ⟨some t, some hu, some w, some wi, some aq, some rg⟩ →
      render (some ⟨true⟩) ⟨some p, false, none⟩ false =
        .successPill (classifyIconSpec w) (toString t ++ "°C") w none) ∧
    (d.weatherData = none →
      (getCurrentWeather (some p)).temperature = "--" ∧
      (getCurrentWeather (some p)).weather = "未知") := by
  constructor
  · intro t hu w wi aq rg hwd
    have hcw : getCurrentWeather (some p) =
        ⟨toString t, w, toString hu, aq⟩ := by
      cases p with
      | mk pst pmsg pdata =>
        cases hd
        simp [getCurrentWeather, hwd]
    rw [← getWeatherIcon_eq_classifyIconSpec]
    simp [render, strTruthy, hcw]
  · intro hwd
    cases p with
    | mk pst pmsg pdata =>
      cases hd
      simp [getCurrentWeather, hwd, emptyWeatherFields]

/-- C5 witness: a concrete success payload with a full `weatherData` renders
the classified icon, the suffixed temperature and the description. -/
theorem success_payload_rendering_at_example :
    render (some ⟨true⟩)
        ⟨some ⟨"success", "",
          some ⟨some ⟨some 25, some 60, some "晴", some "北风", some "良", some "北京"⟩,
            none, none, none, none, none, none, none⟩⟩, false, none⟩ false =
      .successPill (classifyIconSpec "晴") (toString (25 : Int) ++ "°C") "晴" none :=
  (success_payload_rendering _ _ rfl).1 25 60 "晴" "北风" "良" "北京" rfl

/-- The guard of the data-fetching effect (lines 59-62): with an absent or
disabled configuration the effect body returns before doing anything. -/
def effectActive (config : Option WeatherConfig) : Bool :=
  match config with
  | none => false
  | some c => c.enabled

/-- The outside world as the effect sees it: whether the 10-minute interval
handle is installed, and how many fetches have been issued. -/
structure EffectWorld where
  timerInstalled : Bool
  fetchCount : Nat
  deriving DecidableEq

/-- Observable behaviour of the effect body (lines 59-98): past the guard it
issues one immediate fetch (line 92) and installs the interval (line 95);
under the guard it does nothing at all. -/
def runEffectBody (config : Option WeatherConfig) (w : EffectWorld) : EffectWorld :=
  if effectActive config then ⟨true, w.fetchCount + 1⟩ else w

/-- The effect cleanup (line 97): `clearInterval(interval)`, run by React on
unmount or before re-running the effect on a configuration change. -/
def runEffectCleanup (w : EffectWorld) : EffectWorld :=
  { w with timerInstalled := false }

/-- Browser interval semantics: a tick runs `fetchWeather` only while the
interval handle is installed; a cleared interval never fires. -/
def intervalTick (w : EffectWorld) : EffectWorld :=
  if w.timerInstalled then { w with fetchCount := w.fetchCount + 1 } else w

/-- C6: for every absent or disabled configuration, the effect body leaves
the world untouched — no fetch is issued and no timer is installed — and the
component's render output is empty in every state. -/
theorem disabled_config_no_fetch_empty_render (config : Option WeatherConfig)
    (h : config = none ∨ ∃ c, config = some c ∧ c.enabled = false) :
    (∀ w, runEffectBody config w = w) ∧
    (∀ s hov, render config s hov = .empty) := by
  rcases h with h | ⟨c, hc, hen⟩
  · subst h
    exact ⟨fun w => rfl, fun s hov => rfl⟩
  · subst hc
    constructor
    · intro w
      simp [runEffectBody, effectActive, hen]
    · intro s hov
      simp [render, hen]

/-- C6 witness: with no configuration the world is untouched and the render
output is empty. -/
theorem disabled_config_no_fetch_empty_render_at_none :
    runEffectBody none ⟨false, 0⟩ = ⟨false, 0⟩ ∧
    render none ⟨none, false, none⟩ false = .empty := by
  have h := disabled_config_no_fetch_empty_render none (Or.inl rfl)
  exact ⟨h.1 ⟨false, 0⟩, h.2 ⟨none, false, none⟩ false⟩

/-- C8: after the cleanup runs — on unmount or on a configuration change —
the interval handle is no longer installed, and a tick scheduled to occur
after the teardown issues no further fetch: the world is unchanged.  No timer
outlives the component's active lifetime. -/
theorem timer_cancelled_on_teardown (w : EffectWorld) :
    (runEffectCleanup w).timerInstalled = false ∧
    intervalTick (runEffectCleanup w) = runEffectCleanup w := by
  constructor
  · rfl
  · simp [intervalTick, runEffectCleanup]

/-- C10: for the fields temperature, weather, humidity and airQuality the
placeholder is substituted only for an absent (null/undefined) field; a
present-but-falsy value such as temperature `0` or an empty weather
description is kept and rendered as-is, `0` rendering as `0°C`. -/
theorem nullish_coalescing_keeps_falsy_values (st msg : String)
    (d : PayloadData) (wd : WeatherFields) (h : d.weatherData = some wd) :
    (∀ t, wd.temperature = some t →
      (getCurrentWeather (some ⟨st, msg, some d⟩)).temperature = toString t) ∧
    (wd.temperature = none →
      (getCurrentWeather (some ⟨st, msg, some d⟩)).temperature = "--") ∧
    (wd.temperature = some 0 →
      (getCurrentWeather (some ⟨st, msg, some d⟩)).temperature ++ "°C" = "0°C") ∧
    (∀ w, wd.weather = some w →
      (getCurrentWeather (some ⟨st, msg, some d⟩)).weather = w) ∧
    (wd.weather = none →
      (getCurrentWeather (some ⟨st, msg, some d⟩)).weather = "未知") ∧
    (∀ hu, wd.humidity = some hu →
      (getCurrentWeather (some ⟨st, msg, some d⟩)).humidity = toString hu) ∧
    (wd.humidity = none →
      (getCurrentWeather (some ⟨st, msg, some d⟩)).humidity = "--") ∧
    (∀ aq, wd.airQuality = some aq →
      (getCurrentWeather (some ⟨st, msg, some d⟩)).airQuality = aq) ∧
    (wd.airQuality = none →
      (getCurrentWeather (some ⟨st, msg, some d⟩)).airQuality = "--") := by
  refine ⟨?_, ?_, ?_, ?_, ?_, ?_, ?_, ?_, ?_⟩ <;>
    first
      | (intro v hv; simp [getCurrentWeather, h, hv])
      | (intro hv; simp [getCurrentWeather, h, hv])
  decide

/-- C10 witness: a snapshot holding temperature 0 and an empty weather
description keeps both values. -/
theorem nullish_coalescing_keeps_falsy_values_at_zero :
    (getCurrentWeather (some ⟨"success", "",
        some ⟨some ⟨some 0, none, some "", none, none, none⟩,
          none, none, none, none, none, none, none⟩⟩)).temperature ++ "°C" = "0°C" ∧
    (getCurrentWeather (some ⟨"success", "",
        some ⟨some ⟨some 0, none, some "", none, none, none⟩,
          none, none, none, none, none, none, none⟩⟩)).weather = "" := by
  have h := nullish_coalescing_keeps_falsy_values "success" ""
    ⟨some ⟨some 0, none, some "", none, none, none⟩,
      none, none, none, none, none, none, none⟩
    ⟨some 0, none, some "", none, none, none⟩ rfl
  exact ⟨h.2.2.1 rfl, h.2.2.2.1 "" rfl⟩
